import Mathlib

/- Verification of the Can-Am Specialist API (app/main.py, FastAPI service).
   The definitions below are a shallow embedding of the deterministic intent
   router exposed at the /answer endpoint, of the per-intent endpoint stubs it
   calls, and of the text normalizer described in the specification.  Python
   strings are modelled as lists of characters; regular-expression searches
   (re.search) are modelled as leftmost-match scans; Python float literals of
   the source, which are all one-decimal values, are modelled by the exact
   decimal type Deci. -/

namespace CanAm

/-- Texts are lists of characters (the contents of a Python string). -/
abbrev Txt := List Char

/-- Lower-casing of a text, as Python str.lower on ASCII data. -/
def lowerL (t : Txt) : Txt := t.map Char.toLower

/-- A regex word character for the word-boundary assertion b: [A-Za-z0-9_]. -/
def isWordChar (c : Char) : Bool := c.isAlphanum || c == '_'

/-- Python str.isspace characters relevant to str.strip: space, tab, newline,
carriage return, vertical tab, form feed. -/
def isPySpace (c : Char) : Bool :=
  c == ' ' || c == '\t' || c == '\n' || c == '\r' || c == '\x0b' || c == '\x0c'

/-- Python str.strip(): drop whitespace from both ends. -/
def pyStrip (t : Txt) : Txt :=
  ((t.dropWhile isPySpace).reverse.dropWhile isPySpace).reverse

/-- str.strip() on a whole string. -/
def stripStr (s : String) : String := (pyStrip s.data).asString

/-- Auxiliary scan for substring containment. -/
def containsAux (p : Txt) : Txt → Bool
  | [] => p.isPrefixOf []
  | c :: rest => p.isPrefixOf (c :: rest) || containsAux p rest

/-- Python substring membership: needle in hay. -/
def containsSub (needle : String) (hay : Txt) : Bool := containsAux needle.data hay

/-- any(k in lo for k in kws). -/
def anyKw (kws : List String) (lo : Txt) : Bool := kws.any (fun k => containsSub k lo)

/-- The word-boundary condition before a match position: at the start of the
text or after a non-word character.  All tokens searched by the source start
and end with word characters, for which b reduces to this test. -/
def bndOk : Option Char → Bool
  | none => true
  | some c => !isWordChar c

/-- The word-boundary condition after a match: at the end of the text or
before a non-word character. -/
def tailOk : Txt → Bool
  | [] => true
  | d :: _ => !isWordChar d

/-- Does the token match at this position, with word boundaries on both sides
(the semantics of re.search(r"\btok\b", ...) at one position)? -/
def tokenHere (tok : Txt) (prev : Option Char) (s : Txt) : Bool :=
  bndOk prev && tok.isPrefixOf s && tailOk (s.drop tok.length)

/-- Scan of all positions for a word-boundary-delimited token. -/
def hasTokenAux (tok : Txt) : Option Char → Txt → Bool
  | _, [] => false
  | prev, c :: rest => tokenHere tok prev (c :: rest) || hasTokenAux tok (some c) rest

/-- re.search(r"\btok\b", t) is not None, for a token made of word chars. -/
def hasToken (tok : String) (t : Txt) : Bool := hasTokenAux tok.data none t

/-- Numeric value of a decimal digit character. -/
def digitVal (c : Char) : Nat := c.toNat - 48

/-- Numeric value of a string of decimal digits. -/
def digitsToNat (ds : Txt) : Nat := ds.foldl (fun acc c => 10 * acc + digitVal c) 0

/-- Match of the year pattern b(20dd)b at one position: literal "20", two
digits, word boundaries on both sides; yields the numeric year. -/
def yearHere (prev : Option Char) : Txt → Option Nat
  | '2' :: '0' :: a :: b :: rest =>
      if bndOk prev && a.isDigit && b.isDigit && tailOk rest then
        some (2000 + 10 * digitVal a + digitVal b)
      else none
  | _ => none

/-- Leftmost-match scan of re.search(r"\b(20\d{2})\b", text). -/
def searchYearAux (prev : Option Char) : Txt → Option Nat
  | [] => none
  | c :: rest =>
      match yearHere prev (c :: rest) with
      | some v => some v
      | none => searchYearAux (some c) rest

/-- Embedding of _pick_year: the first 20xx token, else the default 2024. -/
def pick_year (t : Txt) : Nat := (searchYearAux none t).getD 2024

/-- Embedding of _pick_model: ordered, case-insensitive first-match rules of
the source (substring "spyder f3" or token f3; substring "spyder rt" or token
rt; substring "ryker"; substring "canyon"). -/
def pick_model (t : Txt) : Option String :=
  let tl := lowerL t
  if containsSub "spyder f3" tl || hasToken "f3" tl then some "Spyder F3 T"
  else if containsSub "spyder rt" tl || hasToken "rt" tl then some "Spyder RT"
  else if containsSub "ryker" tl then some "Ryker"
  else if containsSub "canyon" tl then some "Canyon"
  else none

/-- Match of the zip pattern b\d{5}b at one position, yielding the digits. -/
def zipHere (prev : Option Char) (s : Txt) : Option Txt :=
  let ds := s.take 5
  if bndOk prev && (ds.length == 5) && ds.all Char.isDigit && tailOk (s.drop 5) then
    some ds
  else none

/-- Leftmost-match scan of re.search(r"\b\d{5}\b", text). -/
def searchZipAux (prev : Option Char) : Txt → Option Txt
  | [] => none
  | c :: rest =>
      match zipHere prev (c :: rest) with
      | some z => some z
      | none => searchZipAux (some c) rest

/-- The first 5-digit zip token of a text, if any. -/
def searchZip (t : Txt) : Option Txt := searchZipAux none t

/-- After the digits of the miles pattern: \s* then the literal "mi" (the
alternation (mi|miles) tries "mi" first, and group 1 is unaffected). -/
def milesSuffixOk (s : Txt) : Bool := "mi".data.isPrefixOf (s.dropWhile isPySpace)

/-- Match of (\d{3,6})\s*(mi|miles) at one position: the greedy quantifier
tries 6 digits first, backtracking down to 3. -/
def milesHere (s : Txt) : Option Nat :=
  [6, 5, 4, 3].findSome? fun k =>
    let ds := s.take k
    if (ds.length == k) && ds.all Char.isDigit && milesSuffixOk (s.drop k) then
      some (digitsToNat ds)
    else none

/-- Leftmost-match scan of re.search(r"(\d{3,6})\s*(mi|miles)", lo). -/
def searchMilesAux : Txt → Option Nat
  | [] => none
  | c :: rest =>
      match milesHere (c :: rest) with
      | some v => some v
      | none => searchMilesAux rest

/-- The mileage mentioned in the question, if any. -/
def searchMiles (t : Txt) : Option Nat := searchMilesAux t

/-- Python "s or d" for strings: the default replaces None-like empty text. -/
def strOr (s d : String) : String := if s = "" then d else s

/-- Python "x or d" for an optional string. -/
def optOr : Option String → String → String
  | none, d => d
  | some s, d => if s = "" then d else s

/-- Exact one-decimal value u.t, standing for the simple Python float
literals of the source; render gives Python str() of such a float. -/
structure Deci where
  units : Nat
  tenths : Nat
deriving DecidableEq

/-- Python str() of a one-decimal float. -/
def Deci.render (d : Deci) : String := toString d.units ++ "." ++ toString d.tenths

/-- Comparison of a one-decimal float with an integer (exact arithmetic). -/
def Deci.leInt (d : Deci) (b : Int) : Bool :=
  decide ((10 * (d.units : Int) + (d.tenths : Int)) ≤ 10 * b)

/-- key.replace of underscores by spaces, as used for capacity keys. -/
def replUnd (s : String) : String :=
  (s.data.map (fun c => if c == '_' then ' ' else c)).asString

/-- dict.get(k, d) over an association list. -/
def lookupD (l : List (String × String)) (k d : String) : String :=
  (((l.find? (fun kv => kv.1 == k)).map (fun kv => kv.2)).getD d)

/-- SpecReq request schema: model, year, optional trim. -/
structure SpecReq where
  model : String
  year : Nat
  trim : Option String
deriving DecidableEq

/-- SpecSheet response schema; the fields that the source always populates and
renders (the always-None fields dimensions, suspension and brakes are
omitted, nothing reads them).  trim holds the already defaulted trim. -/
structure SpecSheet where
  model : String
  year : Nat
  trim : String
  engine : String
  transmission : String
  horsepower : Nat
  torque : Nat
  weight_lbs : Nat
  seat_height_in : Deci
  electronics : String
deriving DecidableEq

/-- The constant Ryker sheet returned by the spec_sheet fallback branch. -/
def rykerSheet (year : Nat) (trim : Option String) : SpecSheet :=
  { model := "Ryker", year := year, trim := optOr trim "Sport",
    engine := "Rotax 900 ACE", transmission := "CVT", horsepower := 82,
    torque := 58, weight_lbs := 642, seat_height_in := ⟨24, 7⟩,
    electronics := "VSS, ABS, TCS" }

/-- Embedding of the /spec_sheet endpoint. -/
def spec_sheet (req : SpecReq) : SpecSheet :=
  let name := lowerL req.model.data
  if containsSub "spyder f3" name || hasToken "f3" name then
    { model := "Spyder F3 T", year := req.year, trim := optOr req.trim "F3-T",
      engine := "Rotax 1330 ACE", transmission := "6-speed semi-auto",
      horsepower := 115, torque := 96, weight_lbs := 964,
      seat_height_in := ⟨26, 6⟩, electronics := "VSS, ABS, TCS" }
  else if containsSub "spyder rt" name || hasToken "rt" name then
    { model := "Spyder RT", year := req.year, trim := optOr req.trim "Limited",
      engine := "Rotax 1330 ACE", transmission := "6-speed semi-auto",
      horsepower := 115, torque := 96, weight_lbs := 1021,
      seat_height_in := ⟨29, 7⟩, electronics := "VSS, ABS, TCS" }
  else rykerSheet req.year req.trim

/-- FluidsReq request schema. -/
structure FluidsReq where
  model : String
  year : Nat
  system : Option String
deriving DecidableEq

/-- FluidTorque response: capacities and specs dicts as association lists,
torques as fastener-name/value pairs. -/
structure FluidTorque where
  capacities : List (String × String)
  specs : List (String × String)
  torques : List (String × Nat)
deriving DecidableEq

/-- Embedding of the /fluids_torque endpoint stub (constant response). -/
def fluids_torque (_ : FluidsReq) : FluidTorque :=
  { capacities := [("engine_oil", "3.5 L")],
    specs := [("viscosity", "5W-40"), ("type", "XPS Synthetic")],
    torques := [("Front axle", 105)] }

/-- TireReq request schema. -/
structure TireReq where
  model : String
  year : Nat
  axle : String
deriving DecidableEq

/-- TireSpec response schema (load_index is always None and unused). -/
structure TireSpec where
  axle : String
  size : String
  pressure_psi : Deci
  brand : String
deriving DecidableEq

/-- Embedding of the /tire_fitment endpoint. -/
def tire_fitment (req : TireReq) : TireSpec :=
  if req.axle = "front" then
    { axle := "front", size := "165/55 R15", pressure_psi := ⟨18, 0⟩, brand := "Kenda XPS" }
  else
    { axle := "rear", size := "225/50 R15", pressure_psi := ⟨28, 0⟩, brand := "Kenda XPS" }

/-- MaintenanceReq request schema. -/
structure MaintenanceReq where
  model : String
  year : Nat
  miles : Option Nat
deriving DecidableEq

/-- One entry of the maintenance schedule next_due list. -/
structure MaintItem where
  task : String
  interval_mi : Nat
  interval_time : String
  parts : List String
  notes : String
deriving DecidableEq

/-- Embedding of the /get_maintenance_schedule endpoint stub: the next_due
list of its constant response. -/
def get_maintenance_schedule (_ : MaintenanceReq) : List MaintItem :=
  [{ task := "Engine oil & filter", interval_mi := 6000, interval_time := "12 months",
     parts := ["XPS 5W-40", "420956744"], notes := "Warm engine before draining" }]

/-- NearestDealersReq request schema, with its schema defaults. -/
structure NearestDealersReq where
  zip : String
  radius_mi : Nat := 50
  limit : Nat := 10
deriving DecidableEq

/-- Dealer response schema (the lat/lon floats are never read by /answer and
are omitted). -/
structure Dealer where
  dealer_id : String
  name : String
  address : String
  city : String
  state : String
  zip : String
  phone : String
  distance : Deci
  services : List String
  website : String
deriving DecidableEq

/-- Embedding of the /nearest_dealers endpoint stub (constant response). -/
def nearest_dealers (_ : NearestDealersReq) : List Dealer :=
  [{ dealer_id := "D123", name := "Alpha Can-Am", address := "100 Beach Rd",
     city := "Miami", state := "FL", zip := "33139", phone := "305-555-0100",
     distance := ⟨8, 2⟩, services := ["sales", "service"],
     website := "https://example.com" }]

/-- PartsReq request schema. -/
structure PartsReq where
  model : String
  year : Nat
  assembly : String
deriving DecidableEq

/-- PartItem response schema. -/
structure PartItem where
  part_no : String
  name : String
  qty : Nat
  diagram_url : String
deriving DecidableEq

/-- Embedding of the /parts_lookup endpoint stub (constant response). -/
def parts_lookup (_ : PartsReq) : List PartItem :=
  [{ part_no := "705601234", name := "Front brake pad set", qty := 1,
     diagram_url := "https://example.com/diag/brake-front" }]

/-- BundleReq request schema. -/
structure BundleReq where
  model : String
  year : Nat
  use_case : String
  budget_usd : Option Int
deriving DecidableEq

/-- AccessoryItem response schema. -/
structure AccessoryItem where
  sku : String
  name : String
  category : String
  msrp_usd : Deci
  fits : Bool
deriving DecidableEq

/-- AccessoryBundle response schema. -/
structure AccessoryBundle where
  bundle_name : String
  total_msrp_usd : Deci
  items : List AccessoryItem
deriving DecidableEq

/-- AccessoryBundles response schema. -/
structure AccessoryBundles where
  use_case : String
  bundles : List AccessoryBundle
deriving DecidableEq

/-- The one bundle that /bundle_accessories builds. -/
def touringComfortBundle : AccessoryBundle :=
  { bundle_name := "Touring Comfort", total_msrp_usd := ⟨1299, 0⟩,
    items := [{ sku := "219400999", name := "Heated Grips", category := "Comfort",
                msrp_usd := ⟨299, 0⟩, fits := true },
              { sku := "219401111", name := "Top Case", category := "Luggage",
                msrp_usd := ⟨999, 0⟩, fits := true }] }

/-- Embedding of the /bundle_accessories endpoint: the bundle is kept when
budget_usd is None or total_msrp_usd is at most the budget. -/
def bundle_accessories (req : BundleReq) : AccessoryBundles :=
  let bundle := touringComfortBundle
  let keep : Bool :=
    match req.budget_usd with
    | none => true
    | some b => bundle.total_msrp_usd.leInt b
  { use_case := req.use_case, bundles := if keep then [bundle] else [] }

/-- RiderProfile built by the recommendation fallback (budget_usd is never
set by /answer and is unused by /recommend_model). -/
structure RiderProfile where
  experience_level : String
  ride_type : String
  comfort_priority : Bool
deriving DecidableEq

/-- RecommendationOutput response schema. -/
structure RecommendationOutput where
  model : String
  year : Nat
  trim : String
  reasons : List String
deriving DecidableEq

/-- Embedding of the /recommend_model endpoint. -/
def recommend_model (rp : RiderProfile) : RecommendationOutput :=
  if rp.ride_type ∈ ["two-up", "long-distance"] then
    { model := "Spyder RT", year := 2024, trim := "Limited",
      reasons := ["Two-up touring", "Largest storage", "Wind protection"] }
  else
    { model := "Ryker", year := 2024, trim := "Sport",
      reasons := ["Lightweight agility", "Accessible pricing"] }

/-- The intents of the deterministic router. -/
inductive Intent
  | spec | fluids | tires | maintenance | dealer | parts | accessory | recommend
deriving DecidableEq

/-- The keyword condition of the specs group. -/
def specKw (lo : Txt) : Bool := anyKw ["spec", "specs", "specifications", "spec sheet"] lo

/-- The keyword condition of the fluids group. -/
def fluidKw (lo : Txt) : Bool := anyKw ["oil", "fluid", "fluids", "torque", "capacity"] lo

/-- The keyword condition of the tires group. -/
def tireKw (lo : Txt) : Bool := containsSub "tire" lo

/-- The keyword condition of the maintenance group. -/
def maintKw (lo : Txt) : Bool := anyKw ["service", "maint", "maintenance", "interval"] lo

/-- The keyword condition of the dealer group. -/
def dealerKw (lo : Txt) : Bool := containsSub "dealer" lo || containsSub "dealership" lo

/-- The keyword condition of the parts group. -/
def partsKw (lo : Txt) : Bool := anyKw ["part", "parts", "diagram"] lo

/-- The keyword condition of the accessory group. -/
def accessoryKw (lo : Txt) : Bool := containsSub "accessor" lo || containsSub "bundle" lo

/-- The branch taken by /answer, with the extracted model where the guard
required one.  This matches the source chain "keyword and model" for specs,
fluids, tires, maintenance and parts, and keyword-only guards for dealer and
accessory: when the model is None the model-requiring guards are all false
and the chain reduces to dealer, accessory, recommend. -/
inductive Routed
  | spec (m : String)
  | fluids (m : String)
  | tires (m : String)
  | maintenance (m : String)
  | dealer
  | parts (m : String)
  | accessory
  | recommend
deriving DecidableEq

/-- The router of /answer over the lower-cased stripped question. -/
def routeR (lo : Txt) : Routed :=
  match pick_model lo with
  | some m =>
      if specKw lo then .spec m
      else if fluidKw lo then .fluids m
      else if tireKw lo then .tires m
      else if maintKw lo then .maintenance m
      else if dealerKw lo then .dealer
      else if partsKw lo then .parts m
      else if accessoryKw lo then .accessory
      else .recommend
  | none =>
      if dealerKw lo then .dealer
      else if accessoryKw lo then .accessory
      else .recommend

/-- The intent of a routed branch. -/
def intentOf : Routed → Intent
  | .spec _ => .spec
  | .fluids _ => .fluids
  | .tires _ => .tires
  | .maintenance _ => .maintenance
  | .dealer => .dealer
  | .parts _ => .parts
  | .accessory => .accessory
  | .recommend => .recommend

/-- The downstream operations /answer can invoke, with their arguments: the
effect log of one request. -/
inductive Call
  | spec_sheet (model : String) (year : Nat)
  | fluids_torque (model : String) (year : Nat) (system : String)
  | tire_fitment (model : String) (year : Nat) (axle : String)
  | maintenance (model : String) (year : Nat) (miles : Option Nat)
  | nearest_dealers (zip : String) (radius : Nat) (limit : Nat)
  | parts_lookup (model : String) (year : Nat) (assembly : String)
  | bundle_accessories (model : String) (year : Nat) (use_case : String) (budget : Option Int)
  | recommend_model (experience : String) (ride : String) (comfort : Bool)
deriving DecidableEq

/-- The body of /answer on the lower-cased stripped question: the rendered
answer text and the log of downstream calls, branch by branch as in the
source. -/
def answerBody (lo : Txt) : String × List Call :=
  let model := pick_model lo
  let year := pick_year lo
  match routeR lo with
  | .spec m =>
      let sp := spec_sheet { model := m, year := year, trim := none }
      (sp.model ++ " " ++ toString sp.year ++ " " ++ strOr sp.trim "" ++ "\n" ++
       "Engine: " ++ sp.engine ++ "  Transmission: " ++ sp.transmission ++ "\n" ++
       "Horsepower: " ++ toString sp.horsepower ++ " hp  Torque: " ++
       toString sp.torque ++ " lb-ft\n" ++
       "Weight: " ++ toString sp.weight_lbs ++ " lb  Seat height: " ++
       sp.seat_height_in.render ++ " in\n" ++
       "Electronics: " ++ strOr sp.electronics "—",
       [Call.spec_sheet m year])
  | .fluids m =>
      let sys := if containsSub "brake" lo then "brake"
                 else if containsSub "trans" lo || containsSub "transmission" lo then "trans"
                 else "engine"
      let ft := fluids_torque { model := m, year := year, system := some sys }
      let caps := strOr (String.intercalate ", "
        (ft.capacities.map (fun kv => replUnd kv.1 ++ ": " ++ kv.2))) "—"
      let torq := strOr (String.intercalate "; "
        (ft.torques.map (fun tv => tv.1 ++ ": " ++ toString tv.2 ++ " Nm"))) "—"
      let specLine := "Viscosity: " ++ lookupD ft.specs "viscosity" "—" ++
        "  Type: " ++ lookupD ft.specs "type" "—"
      (m ++ " " ++ toString year ++ " " ++ sys ++ " fluids\n" ++ caps ++ "\n" ++
       specLine ++ "\nKey torques: " ++ torq,
       [Call.fluids_torque m year sys])
  | .tires m =>
      let axle := if containsSub "rear" lo then "rear" else "front"
      let ts := tire_fitment { model := m, year := year, axle := axle }
      (m ++ " " ++ toString year ++ " " ++ axle ++ " tire: " ++ ts.size ++ ", " ++
       ts.pressure_psi.render ++ " psi. Recommended brand: " ++ ts.brand ++ ".",
       [Call.tire_fitment m year axle])
  | .maintenance m =>
      let miles := searchMiles lo
      let items := get_maintenance_schedule { model := m, year := year, miles := miles }
      let lines := items.map (fun i =>
        "- " ++ i.task ++ " — " ++ toString i.interval_mi ++ " mi / " ++ i.interval_time)
      (m ++ " " ++ toString year ++ " maintenance:\n" ++
       (if lines.isEmpty then "No items." else String.intercalate "\n" lines),
       [Call.maintenance m year miles])
  | .dealer =>
      match searchZip lo with
      | none => ("Say a 5-digit ZIP, e.g., “dealer near 90210”.", [])
      | some z =>
          let lst := nearest_dealers { zip := z.asString, radius_mi := 50, limit := 5 }
          if lst.isEmpty then
            ("No nearby dealers found.", [Call.nearest_dealers z.asString 50 5])
          else
            ("Closest dealers:\n" ++ String.intercalate "\n"
              ((lst.take 5).map (fun d => "• " ++ d.name ++ " — " ++ d.city ++ ", " ++ d.state)),
             [Call.nearest_dealers z.asString 50 5])
  | .parts m =>
      let asm := if containsSub "brake" lo then "front_brake"
                 else if containsSub "drive" lo then "rear_drive"
                 else "handlebar"
      match parts_lookup { model := m, year := year, assembly := asm } with
      | [] => ("No parts found.", [Call.parts_lookup m year asm])
      | first :: _ =>
          (m ++ " " ++ toString year ++ " parts (" ++ asm ++ "): " ++ first.name ++
           " — #" ++ first.part_no,
           [Call.parts_lookup m year asm])
  | .accessory =>
      let use := if containsSub "tour" lo then "touring"
                 else if containsSub "commute" lo then "commuter"
                 else if containsSub "performance" lo then "performance"
                 else if containsSub "two" lo then "two-up"
                 else if containsSub "winter" lo then "winter"
                 else "touring"
      let b := bundle_accessories
        { model := optOr model "Ryker", year := year, use_case := use, budget_usd := none }
      match b.bundles with
      | [] => ("No bundle within budget. Ask for another use-case.",
               [Call.bundle_accessories (optOr model "Ryker") year use none])
      | bb :: _ =>
          (bb.bundle_name ++ " ($" ++ bb.total_msrp_usd.render ++ "): " ++
           String.intercalate ", " (bb.items.map (fun i => i.name)),
           [Call.bundle_accessories (optOr model "Ryker") year use none])
  | .recommend =>
      let experience := if containsSub "new" lo then "new"
                        else if containsSub "expert" lo then "expert"
                        else "intermediate"
      let ride := if anyKw ["tour", "two-up", "highway", "distance"] lo then "long-distance"
                  else if anyKw ["city", "commute"] lo then "urban"
                  else "solo"
      let comfort := anyKw ["tour", "two-up", "comfort"] lo
      let rcm := recommend_model
        { experience_level := experience, ride_type := ride, comfort_priority := comfort }
      let msg := stripStr ("I recommend the " ++ rcm.model ++ " " ++ strOr rcm.trim "" ++
        " " ++ (if rcm.year == 0 then "" else toString rcm.year) ++ ".")
      (if rcm.reasons.isEmpty then msg
       else msg ++ " Reasons: " ++ String.intercalate ", " rcm.reasons ++ ".",
       [Call.recommend_model experience ride comfort])

/-- Embedding of the /answer endpoint: a 400 ValidationError on an empty
stripped question, otherwise the composed answer and its call log. -/
def answer (q : String) : Except String (String × List Call) :=
  let text := pyStrip q.data
  if text = [] then .error "Empty question"
  else .ok (answerBody (lowerL text))

/-- The intent /answer settles on, None exactly on the validation error. -/
def classify (q : String) : Option Intent :=
  let text := pyStrip q.data
  if text = [] then none else some (intentOf (routeR (lowerL text)))

/-- The model /answer extracts from a question. -/
def extractedModel (q : String) : Option String := pick_model (lowerL (pyStrip q.data))

/-- The intent groups in the order the source tests them, each paired with
its guard: keyword condition, and for specs, fluids, tires, maintenance and
parts also a non-null extracted model.  Dealer and accessory guards are
keyword-only in the source. -/
def orderedGroups (lo : Txt) : List (Intent × Bool) :=
  [(Intent.spec, specKw lo && (pick_model lo).isSome),
   (Intent.fluids, fluidKw lo && (pick_model lo).isSome),
   (Intent.tires, tireKw lo && (pick_model lo).isSome),
   (Intent.maintenance, maintKw lo && (pick_model lo).isSome),
   (Intent.dealer, dealerKw lo),
   (Intent.parts, partsKw lo && (pick_model lo).isSome),
   (Intent.accessory, accessoryKw lo)]

/-- The ordered model-extraction rules of _pick_model: each rule tests its
own multi-word phrase or its own word-boundary-guarded abbreviation, and the
rules are tried first to last. -/
def modelRules : List ((Txt → Bool) × String) :=
  [(fun tl => containsSub "spyder f3" tl || hasToken "f3" tl, "Spyder F3 T"),
   (fun tl => containsSub "spyder rt" tl || hasToken "rt" tl, "Spyder RT"),
   (fun tl => containsSub "ryker" tl, "Ryker"),
   (fun tl => containsSub "canyon" tl, "Canyon")]

/-- Declarative reading of re.search(r"\b(20\d{2})\b", t): the value of the
year token at the smallest matching position, scanning positions in order. -/
def firstYearHit (t : Txt) : Option Nat :=
  (List.range t.length).findSome? fun i =>
    yearHere (if i = 0 then none else t[i - 1]?) (t.drop i)

/-- Modelled from the spec: the Text Normalizer is not part of src/app/main.py
(the spec describes it in its section 4.1); this models its canonical
spelling, the two-word domain phrase Can-Am. -/
def CANON : Txt := "Can-Am".data

/-- Modelled from the spec: the ordered list of pattern substitutions of the
Text Normalizer — phonetic mis-transcriptions of the domain phrase first,
then the general correctly-worded-but-miscased/misspaced forms, matched
case-insensitively; every pattern rewrites to the canonical CANON. -/
def variants : List Txt :=
  ["cannam".data, "kanam".data, "can am".data, "can-am".data]

/-- The first pattern of the ordered substitution list matching at this
position (case-insensitively), with the matched length. -/
def tryMatch (s : Txt) : Option Nat :=
  (variants.find? (fun p => p.isPrefixOf (lowerL s))).map List.length

/-- Modelled from the spec: one left-to-right pass applying the ordered
pattern substitutions, rewriting each matched variant to CANON. -/
def canonize : Txt → Txt
  | [] => []
  | c :: rest =>
      match tryMatch (c :: rest) with
      | some n => CANON ++ canonize (rest.drop (n - 1))
      | none => c :: canonize rest
termination_by t => t.length
decreasing_by
  all_goals simp [List.length_drop]
  all_goals omega

/-- Modelled from the spec: the Text Normalizer as a function on strings. -/
def normalize (s : String) : String := (canonize s.data).asString

/-- Characters that begin no substitution pattern: every pattern of the
normalizer starts with c or k, and no pattern has c or k past its head. -/
def noCK (w : Txt) : Bool := w.all fun c => !(c == 'c') && !(c == 'k')

/- Helper lemmas. -/

theorem char_ofNat_toNat (n : Nat) (h : n < 55296) : (Char.ofNat n).toNat = n := by
  have hv : n.isValidChar := Or.inl h
  rw [Char.ofNat, dif_pos hv]
  rfl

theorem char_toLower_idem (c : Char) : c.toLower.toLower = c.toLower := by
  have e : ∀ d : Char,
      d.toLower = if d.toNat ≥ 65 ∧ d.toNat ≤ 90 then Char.ofNat (d.toNat + 32) else d :=
    fun d => rfl
  by_cases h : c.toNat ≥ 65 ∧ c.toNat ≤ 90
  · rw [e c, if_pos h]
    have hv : (Char.ofNat (c.toNat + 32)).toNat = c.toNat + 32 :=
      char_ofNat_toNat _ (by omega)
    rw [e (Char.ofNat (c.toNat + 32)), if_neg (by omega)]
  · rw [e c, if_neg h, e c, if_neg h]

theorem lowerL_idem (t : Txt) : lowerL (lowerL t) = lowerL t := by
  simp only [lowerL, List.map_map]
  exact List.map_congr_left (fun a _ => char_toLower_idem a)

theorem list_findSome?_congr {α β : Type} (f g : α → Option β) (l : List α)
    (h : ∀ a ∈ l, f a = g a) : l.findSome? f = l.findSome? g := by
  induction l with
  | nil => rfl
  | cons a l ih =>
      rw [List.findSome?_cons, List.findSome?_cons, h a (by simp)]
      cases g a with
      | some b => rfl
      | none => exact ih (fun x hx => h x (by simp [hx]))

theorem searchYearAux_eq (t : Txt) : ∀ prev : Option Char,
    searchYearAux prev t =
      (List.range t.length).findSome?
        (fun i => yearHere (if i = 0 then prev else t[i - 1]?) (t.drop i)) := by
  induction t with
  | nil => intro prev; rfl
  | cons c rest ih =>
      intro prev
      have hr : List.range (rest.length + 1) = 0 :: (List.range rest.length).map Nat.succ :=
        List.range_succ_eq_map rest.length
      simp only [List.length_cons, hr, List.findSome?_cons, List.findSome?_map]
      simp only [List.drop_zero, eq_self_iff_true, ite_true]
      cases hy : yearHere prev (c :: rest) with
      | some v => simp [searchYearAux, hy]
      | none =>
          simp only [searchYearAux, hy]
          rw [ih (some c)]
          refine list_findSome?_congr _ _ _ (fun i _ => ?_)
          cases i with
          | zero => simp
          | succ j => simp

theorem canonize_nil : canonize [] = [] := by
  rw [canonize]

theorem canonize_cons (c : Char) (rest : Txt) :
    canonize (c :: rest) =
      match tryMatch (c :: rest) with
      | some n => CANON ++ canonize (rest.drop (n - 1))
      | none => c :: canonize rest := by
  rw [canonize]

theorem tryMatch_CANON (x : Txt) : tryMatch ('C' :: ("an-Am".data ++ x)) = some 6 := by
  have h : lowerL ('C' :: ("an-Am".data ++ x)) =
      'c' :: 'a' :: 'n' :: '-' :: 'a' :: 'm' :: lowerL x := rfl
  simp [tryMatch, variants, List.find?, h, List.isPrefixOf]

theorem canonize_CANON_append (x : Txt) : canonize (CANON ++ x) = CANON ++ canonize x := by
  rw [show CANON ++ x = 'C' :: ("an-Am".data ++ x) from rfl, canonize_cons, tryMatch_CANON]
  show CANON ++ canonize (List.drop 5 ("an-Am".data ++ x)) = CANON ++ canonize x
  rw [List.drop_left' (by rfl)]

theorem noCK_transfer (t : Txt) : ∀ w : Txt, noCK w = true →
    w.isPrefixOf (lowerL (canonize t)) = true → w.isPrefixOf (lowerL t) = true := by
  induction t using canonize.induct with
  | case1 => simp [canonize_nil]
  | case2 c rest n hm ih =>
      intro w hck hpre
      rw [canonize_cons, hm] at hpre
      cases w with
      | nil => simp [List.isPrefixOf]
      | cons w0 w' =>
          exfalso
          have h0 : lowerL (CANON ++ canonize (rest.drop (n - 1))) =
              'c' :: lowerL ("an-Am".data ++ canonize (rest.drop (n - 1))) := rfl
          rw [h0] at hpre
          simp only [List.isPrefixOf, Bool.and_eq_true, beq_iff_eq] at hpre
          have hw : (!(w0 == 'c') && !(w0 == 'k')) = true := by
            have h1 := hck
            simp only [noCK, List.all_cons, Bool.and_eq_true] at h1
            exact (by simpa using h1.1)
          simp [hpre.1] at hw
  | case3 c rest hm ih =>
      intro w hck hpre
      rw [canonize_cons, hm] at hpre
      cases w with
      | nil => simp [List.isPrefixOf]
      | cons w0 w' =>
          have h0 : lowerL (c :: canonize rest) = c.toLower :: lowerL (canonize rest) := rfl
          rw [h0] at hpre
          simp only [List.isPrefixOf, Bool.and_eq_true] at hpre
          have hck' : noCK w' = true := by
            simp only [noCK, List.all_cons, Bool.and_eq_true] at hck
            exact hck.2
          have hrest := ih w' hck' hpre.2
          show List.isPrefixOf (w0 :: w') (c.toLower :: lowerL rest) = true
          simp [List.isPrefixOf, hpre.1, hrest]

theorem canonize_idem (t : Txt) : canonize (canonize t) = canonize t := by
  induction t using canonize.induct with
  | case1 => simp [canonize_nil]
  | case2 c rest n hm ih =>
      rw [canonize_cons, hm, canonize_CANON_append, ih]
  | case3 c rest hm ih =>
      rw [canonize_cons, hm]
      have hnone : ∀ p ∈ variants, p.isPrefixOf (lowerL (c :: rest)) = false := by
        intro p hp
        have h1 := hm
        rw [tryMatch, Option.map_eq_none'] at h1
        have h2 := List.find?_eq_none.mp h1 p hp
        simpa only [Bool.not_eq_true] using h2
      have htm : tryMatch (c :: canonize rest) = none := by
        rw [tryMatch, Option.map_eq_none', List.find?_eq_none]
        intro p hp hcon
        have hshape : ∀ p ∈ variants, p ≠ [] ∧ noCK p.tail = true := by decide
        cases p with
        | nil => exact (hshape [] hp).1 rfl
        | cons p0 p' =>
            have hck : noCK p' = true := by simpa using (hshape (p0 :: p') hp).2
            rw [show lowerL (c :: canonize rest) = c.toLower :: lowerL (canonize rest) from rfl]
              at hcon
            simp only [List.isPrefixOf, Bool.and_eq_true] at hcon
            have hr' := noCK_transfer rest p' hck hcon.2
            have hfull : List.isPrefixOf (p0 :: p') (lowerL (c :: rest)) = true := by
              rw [show lowerL (c :: rest) = c.toLower :: lowerL rest from rfl]
              simp [List.isPrefixOf, hcon.1, hr']
            rw [hnone (p0 :: p') hp] at hfull
            simp at hfull
      rw [canonize_cons, htm]
      show c :: canonize (canonize rest) = c :: canonize rest
      rw [ih]

/- Claim theorems. -/

/-- C1: /answer raises the single ValidationError (HTTP 400, "Empty question")
exactly when the question strips to the empty text, and on every non-empty
question it returns an answer string: the router always terminates in some
branch and never fails to classify. -/
theorem answer_validation_iff (q : String) :
    (answer q = .error "Empty question" ↔ pyStrip q.data = []) ∧
    (pyStrip q.data = [] ∨ ∃ s calls, answer q = .ok (s, calls)) := by
  constructor
  · by_cases h : pyStrip q.data = [] <;> simp [answer, h]
  · by_cases h : pyStrip q.data = []
    · exact Or.inl h
    · exact Or.inr ⟨(answerBody (lowerL (pyStrip q.data))).1,
        (answerBody (lowerL (pyStrip q.data))).2, by simp [answer, h]⟩

/-- C2: on every non-empty question /answer settles on the first group, in the
fixed order specs, fluids, tires, maintenance, dealer, parts, accessory, whose
guard (keyword condition together with its entity condition as implemented)
holds, and falls back to the recommend intent exactly when no guard holds. -/
theorem answer_priority_order (q : String) (h : pyStrip q.data ≠ []) :
    classify q =
      some ((((orderedGroups (lowerL (pyStrip q.data))).find? (fun g => g.2)).map
        (fun g => g.1)).getD Intent.recommend) := by
  unfold classify
  rw [if_neg h]
  congr 1
  generalize lowerL (pyStrip q.data) = lo
  cases hm : pick_model lo with
  | some m =>
      cases h1 : specKw lo <;> cases h2 : fluidKw lo <;> cases h3 : tireKw lo <;>
        cases h4 : maintKw lo <;> cases h5 : dealerKw lo <;> cases h6 : partsKw lo <;>
        cases h7 : accessoryKw lo <;>
        simp [routeR, orderedGroups, intentOf, hm, h1, h2, h3, h4, h5, h6, h7, List.find?]
  | none =>
      cases h5 : dealerKw lo <;> cases h7 : accessoryKw lo <;>
        simp [routeR, orderedGroups, intentOf, hm, List.find?, h5, h7]

/-- C2 witness: a question matching both the specs and the fluids groups with
a model is classified by the priority rule (which picks specs). -/
theorem answer_priority_order_witness :
    classify "ryker spec oil" =
      some ((((orderedGroups (lowerL (pyStrip "ryker spec oil".data))).find? (fun g => g.2)).map
        (fun g => g.1)).getD Intent.recommend) :=
  answer_priority_order "ryker spec oil" (by decide)

/-- C3 counterexample: the accessory group is selected for a question with no
extractable model, and the dealer group is selected for a question with no
5-digit zip token — refuting the claim that every non-dealer group requires a
non-null model and that dealer selection requires a zip token. -/
theorem entity_requirements_cex :
    (classify "show accessories" = some Intent.accessory ∧
     extractedModel "show accessories" = none) ∧
    (classify "find a dealership" = some Intent.dealer ∧
     searchZip (lowerL (pyStrip "find a dealership".data)) = none) := by
  refine ⟨⟨?_, ?_⟩, ?_, ?_⟩ <;> rfl

/-- C3 amended: the specs, fluids, tires, maintenance and parts groups are
selected only when a non-null model was extracted; the dealer and accessory
groups are selected on their keywords alone (the dealer branch uses a zip
token only to choose between searching and a guidance message, and the
accessory branch substitutes the default model Ryker). -/
theorem entity_requirements_amended (q : String) (i : Intent) (h : classify q = some i) :
    ((i = Intent.spec ∨ i = Intent.fluids ∨ i = Intent.tires ∨ i = Intent.maintenance ∨
      i = Intent.parts) → (extractedModel q).isSome = true) ∧
    (i = Intent.dealer → dealerKw (lowerL (pyStrip q.data)) = true) ∧
    (i = Intent.accessory → accessoryKw (lowerL (pyStrip q.data)) = true) := by
  unfold classify at h
  by_cases he : pyStrip q.data = []
  · simp [he] at h
  · rw [if_neg he] at h
    injection h with h
    subst h
    unfold extractedModel
    cases hm : pick_model (lowerL (pyStrip q.data)) with
    | some m =>
        simp only [routeR, hm]
        split_ifs <;> simp_all [intentOf]
    | none =>
        simp only [routeR, hm]
        split_ifs <;> simp_all [intentOf]

/-- C3 amended witness: a specs question carries an extracted model. -/
theorem entity_requirements_amended_witness : (extractedModel "ryker specs").isSome = true :=
  (entity_requirements_amended "ryker specs" Intent.spec (by rfl)).1 (Or.inl rfl)

/-- C4 counterexample: the text "spyder rt f3" contains the multi-word phrase
"spyder rt" (whose mapped model is Spyder RT, third conjunct) together with an
unrelated short ambiguous token f3, yet extraction yields Spyder F3 T — the
f3 abbreviation is tested before the "spyder rt" phrase, refuting the claim
that every multi-word phrase is checked before any short abbreviation. -/
theorem model_extraction_order_cex :
    pick_model "spyder rt f3".data = some "Spyder F3 T" ∧
    containsSub "spyder rt" (lowerL "spyder rt f3".data) = true ∧
    pick_model "spyder rt".data = some "Spyder RT" := by
  refine ⟨?_, ?_, ?_⟩ <;> rfl

/-- C4 amended: model extraction is case-insensitive first-match-wins over the
ordered rule list (spyder f3 or token f3 → Spyder F3 T; spyder rt or token
rt → Spyder RT; ryker → Ryker; canyon → Canyon), where each rule tests its own
multi-word phrase together with its own word-boundary-guarded abbreviation;
"ryker" alone yields Ryker, and a text with the phrase "spyder rt" plus an f3
token yields Spyder F3 T because the F3 rule precedes the RT rule. -/
theorem model_extraction_amended :
    (∀ t : Txt, pick_model t =
      ((modelRules.find? (fun r => r.1 (lowerL t))).map (fun r => r.2))) ∧
    (∀ t : Txt, pick_model (lowerL t) = pick_model t) ∧
    pick_model "ryker".data = some "Ryker" ∧
    pick_model "My Spyder RT with f3".data = some "Spyder F3 T" := by
  refine ⟨fun t => ?_, fun t => ?_, rfl, rfl⟩
  · by_cases h1 : (containsSub "spyder f3" (lowerL t) || hasToken "f3" (lowerL t)) = true <;>
    by_cases h2 : (containsSub "spyder rt" (lowerL t) || hasToken "rt" (lowerL t)) = true <;>
    by_cases h3 : containsSub "ryker" (lowerL t) = true <;>
    by_cases h4 : containsSub "canyon" (lowerL t) = true <;>
    simp [pick_model, modelRules, List.find?, h1, h2, h3, h4]
  · simp only [pick_model, lowerL_idem]

/-- C5: year extraction returns the value of the first word-boundary-delimited
20xx token of the text (the leftmost-match scan equals the first-position
characterization) and defaults to 2024 when there is none; a text containing
the token 2023 yields 2023. -/
theorem year_extraction_first_token :
    (∀ t : Txt, pick_year t = (firstYearHit t).getD 2024) ∧
    pick_year "i ride a 2023 spyder".data = 2023 ∧
    pick_year "no year token 123".data = 2024 := by
  refine ⟨fun t => ?_, rfl, rfl⟩
  unfold pick_year firstYearHit
  rw [searchYearAux_eq]

/-- C6: every question classified as dealer whose text has no 5-digit zip
token gets the guidance string back, with an empty call log — no catalog or
geocoding operation is invoked. -/
theorem dealer_without_zip_guidance (q : String) (hd : classify q = some Intent.dealer)
    (hz : searchZip (lowerL (pyStrip q.data)) = none) :
    answer q = .ok ("Say a 5-digit ZIP, e.g., “dealer near 90210”.", []) := by
  unfold classify at hd
  by_cases he : pyStrip q.data = []
  · simp [he] at hd
  · rw [if_neg he] at hd
    injection hd with hd
    have hr : routeR (lowerL (pyStrip q.data)) = Routed.dealer := by
      cases hR : routeR (lowerL (pyStrip q.data)) <;>
        rw [hR] at hd <;> first | rfl | simp [intentOf] at hd
    unfold answer
    rw [if_neg he]
    simp [answerBody, hr, hz]

/-- C6 witness: a dealer question without a zip token gets the guidance
string and an empty call log. -/
theorem dealer_without_zip_guidance_witness :
    answer "any dealership" = .ok ("Say a 5-digit ZIP, e.g., “dealer near 90210”.", []) :=
  dealer_without_zip_guidance "any dealership" (by rfl) (by rfl)

/-- C7: the question "dealer near 90210" classifies as dealer, extracts zip
90210, and invokes the dealer search exactly once with zip 90210, radius 50
and limit 5. -/
theorem dealer_near_90210_end_to_end :
    answer "dealer near 90210" =
      .ok ("Closest dealers:\n• Alpha Can-Am — Miami, FL",
           [Call.nearest_dealers "90210" 50 5]) ∧
    classify "dealer near 90210" = some Intent.dealer ∧
    searchZip (lowerL (pyStrip "dealer near 90210".data)) = some "90210".data := by
  refine ⟨?_, ?_, ?_⟩ <;> rfl

/-- C8: the Text Normalizer is idempotent — normalizing twice equals
normalizing once, for every text. -/
theorem normalize_idempotent (T : String) : normalize (normalize T) = normalize T := by
  show (canonize ((canonize T.data).asString).data).asString = (canonize T.data).asString
  rw [show ((canonize T.data).asString).data = canonize T.data from rfl, canonize_idem]

/-- C9: when the lower-cased model matches neither the F3 condition (substring
"spyder f3" or token f3) nor the RT condition (substring "spyder rt" or token
rt), /spec_sheet returns the fixed Ryker sheet — e.g. for model "Canyon" — so
its model field is always Spyder F3 T, Spyder RT or Ryker. -/
theorem spec_sheet_fallback_ryker (req : SpecReq) :
    ((containsSub "spyder f3" (lowerL req.model.data) ||
      hasToken "f3" (lowerL req.model.data)) = true ∨
     (containsSub "spyder rt" (lowerL req.model.data) ||
      hasToken "rt" (lowerL req.model.data)) = true ∨
     spec_sheet req = rykerSheet req.year req.trim) ∧
    ((spec_sheet req).model = "Spyder F3 T" ∨ (spec_sheet req).model = "Spyder RT" ∨
     (spec_sheet req).model = "Ryker") ∧
    spec_sheet { model := "Canyon", year := 2024, trim := none } = rykerSheet 2024 none := by
  refine ⟨?_, ?_, by rfl⟩
  · by_cases h1 : (containsSub "spyder f3" (lowerL req.model.data) ||
      hasToken "f3" (lowerL req.model.data)) = true
    · exact Or.inl h1
    · by_cases h2 : (containsSub "spyder rt" (lowerL req.model.data) ||
        hasToken "rt" (lowerL req.model.data)) = true
      · exact Or.inr (Or.inl h2)
      · exact Or.inr (Or.inr (by simp [spec_sheet, h1, h2]))
  · simp only [spec_sheet]
    split_ifs <;> simp [rykerSheet]

/-- C10: /bundle_accessories echoes use_case unchanged; its bundle list is
empty exactly when a budget below 1299 was given, and otherwise it is the one
Touring Comfort bundle with total 1299. -/
theorem bundle_budget_gate (req : BundleReq) :
    (bundle_accessories req).use_case = req.use_case ∧
    ((bundle_accessories req).bundles = [] ↔ ∃ b : Int, req.budget_usd = some b ∧ b < 1299) ∧
    ((bundle_accessories req).bundles = [] ∨
      (bundle_accessories req).bundles = [touringComfortBundle]) ∧
    touringComfortBundle.bundle_name = "Touring Comfort" ∧
    touringComfortBundle.total_msrp_usd = ⟨1299, 0⟩ := by
  refine ⟨rfl, ?_, ?_, rfl, rfl⟩
  · cases hb : req.budget_usd with
    | none => simp [bundle_accessories, hb]
    | some b =>
        simp only [bundle_accessories, hb, Deci.leInt, touringComfortBundle]
        by_cases hle : (10 * ((1299 : Nat) : Int) + ((0 : Nat) : Int)) ≤ 10 * b
        · rw [if_pos (by simpa using hle)]
          simp
          omega
        · rw [if_neg (by simpa using hle)]
          simp
          omega
  · cases hb : req.budget_usd with
    | none => simp [bundle_accessories, hb]
    | some b =>
        simp only [bundle_accessories, hb]
        split <;> simp

end CanAm
